import Mathlib

/-!
Shallow embedding of src/src/utils/googleCalendar.ts (SubTracker).

The module keeps four pieces of mutable state: the module-level flags
`isInitialized` and `tokenClient`, the localStorage cell under the key
`google_calendar_token`, and the lazily loaded gapi client handle
(observed through `window.gapi?.client`).  We model them in `CalState`.
Observable side effects (script-load attempts, interactive token
requests, submitted events, toasts, console logging) are collected in a
`Trace`.  The outcome of every external interaction (script load events,
the identity-provider callback, the gapi loader, the insert call) is
fixed by an `Env` value, so each function of the source becomes a pure
function `Env → CalState → Trace → Except JSError α × CalState × Trace`.

JavaScript `Error` values are modelled by the inductive `JSError`, one
constructor per distinct throw site, so that provenance of an error is
visible; `errorMessage` recovers the message string of the source.
A localStorage cell holds a string; we model the cell contents as
`StoredValue`: `.json t` is a string on which `JSON.parse` succeeds and
yields the token record `t`, `.corrupt s` is a string on which
`JSON.parse` throws.
-/

/-- Mirrors the StoredTokenInfo record persisted in localStorage:
fields access_token and expires_at (ms since epoch). -/
structure StoredTokenInfo where
  access_token : String
  expires_at : Nat
deriving DecidableEq, Repr

/-- Contents of the localStorage cell: either a JSON serialization of a
StoredTokenInfo (on which JSON.parse succeeds) or a corrupt string (on
which JSON.parse throws). -/
inductive StoredValue where
  | json (t : StoredTokenInfo)
  | corrupt (s : String)
deriving DecidableEq, Repr

/-- One constructor per distinct error site of googleCalendar.ts. -/
inductive JSError where
  | missingCredentials
  | gisLoadFailed
  | jsonParseError (s : String)
  | tokenClientNotInitialized
  | authError (msg : String)
  | gapiScriptLoadFailed
  | gapiLoadFailed
  | gapiLoadTimeout
  | gapiInitFailed
  | insertFailed (msg : String)
deriving DecidableEq, Repr

/-- The message carried by each error, as written in the source. -/
def JSError.errorMessage : JSError → String
  | .missingCredentials => "Missing Google Calendar credentials"
  | .gisLoadFailed => "Failed to load Google Identity Services"
  | .jsonParseError s => "Unexpected token in JSON: " ++ s
  | .tokenClientNotInitialized => "Token client not initialized"
  | .authError msg => msg
  | .gapiScriptLoadFailed => "Failed to load gapi client"
  | .gapiLoadFailed => "Failed to load gapi client"
  | .gapiLoadTimeout => "Timeout loading gapi client"
  | .gapiInitFailed => "gapi client initialization failed"
  | .insertFailed msg => msg

/-- The TokenResponse delivered to the tokenClient callback.  The source
tests `if (response.error)`; an empty string models an absent (falsy)
error field. -/
structure TokenResponse where
  access_token : String
  expires_in : Nat
  error : String
deriving DecidableEq, Repr

/-- Outcome of window.gapi.load, matching its callback, onerror and
ontimeout continuations. -/
inductive GapiLoadResult where
  | ok
  | onerror
  | ontimeout
deriving DecidableEq, Repr

/-- Fixes the outcome of every external interaction during one run:
presence of the two env credentials, the GIS script load event, the
token callback payload, the api.js script load event, the gapi.load
outcome, gapi.client.init, the events.insert call, Date.now, date-fns
format applied to the renewal date, and the resolved timezone. -/
structure Env where
  googleApiKeyPresent : Bool
  googleClientIdPresent : Bool
  gisScriptLoads : Bool
  tokenResponse : TokenResponse
  gapiScriptLoads : Bool
  gapiClientLoads : GapiLoadResult
  gapiInitOk : Bool
  insertOk : Bool
  insertErrorMsg : String
  now : Nat
  formatDate : String → String
  timeZone : String

/-- The three fields of the subscription argument of addToGoogleCalendar. -/
structure Subscription where
  name : String
  price : String
  renewalDate : String
deriving DecidableEq, Repr

/-- A start or end field of the event literal: dateTime plus timeZone. -/
structure EventDateTime where
  dateTime : String
  timeZone : String
deriving DecidableEq, Repr

/-- One reminder override of the event literal. -/
structure ReminderOverride where
  method : String
  minutes : Nat
deriving DecidableEq, Repr

/-- The reminders field of the event literal. -/
structure Reminders where
  useDefault : Bool
  overrides : List ReminderOverride
deriving DecidableEq, Repr

/-- The event literal built at lines 131-149 of the source. -/
structure CalendarEvent where
  summary : String
  description : String
  start : EventDateTime
  «end» : EventDateTime
  reminders : Reminders
deriving DecidableEq, Repr

/-- The mutable state of the module: the two module-level variables
isInitialized and tokenClient (only its non-nullness matters), the
localStorage cell under TOKEN_STORAGE_KEY, whether window.gapi.client is
present, and the access token last passed to gapi.client.setToken. -/
structure CalState where
  isInitialized : Bool
  tokenClientSet : Bool
  storage : Option StoredValue
  gapiClientLoaded : Bool
  tokenSetTo : Option String
deriving DecidableEq, Repr

/-- Observable side effects accumulated during a run. -/
structure Trace where
  gisScriptLoadAttempts : Nat
  requestAccessTokenCalls : Nat
  gapiScriptLoadAttempts : Nat
  eventsInserted : List CalendarEvent
  successToasts : Nat
  errorToasts : List JSError
  consoleErrors : Nat
deriving DecidableEq, Repr

/-- The fixed localStorage key of the token cache. -/
def TOKEN_STORAGE_KEY : String := "google_calendar_token"

/-- Lines 14-20: storeTokenInfo writes the pair
(access_token, Date.now() + expires_in * 1000) as JSON under the key. -/
def storeTokenInfo (now : Nat) (tokenResponse : TokenResponse) : StoredValue :=
  .json { access_token := tokenResponse.access_token,
          expires_at := now + tokenResponse.expires_in * 1000 }

/-- Lines 22-32: getStoredToken.  Returns the parsed token and the cell
contents after the call.  A missing cell yields none; a corrupt cell
makes JSON.parse throw; an expired entry is removed and none returned;
otherwise the token is returned and the cell untouched. -/
def getStoredToken (storage : Option StoredValue) (now : Nat) :
    Except JSError (Option StoredTokenInfo × Option StoredValue) :=
  match storage with
  | none => .ok (none, none)
  | some (.corrupt s) => .error (.jsonParseError s)
  | some (.json tokenInfo) =>
    if tokenInfo.expires_at ≤ now then .ok (none, none)
    else .ok (some tokenInfo, some (.json tokenInfo))

/-- Lines 34-38: validateEnvVars throws when either credential is absent. -/
def validateEnvVars (env : Env) : Except JSError Unit :=
  if !env.googleApiKeyPresent || !env.googleClientIdPresent then
    .error .missingCredentials
  else .ok ()

/-- Lines 40-47: handleGoogleCalendarError logs to the console and shows
one error toast. -/
def handleGoogleCalendarError (error : JSError) (tr : Trace) : Trace :=
  { tr with consoleErrors := tr.consoleErrors + 1,
            errorToasts := tr.errorToasts ++ [error] }

/-- Lines 49-80: initGoogleCalendar.  Returns early when already
initialized; otherwise validates credentials, loads the GIS script,
creates the token client and sets the flag.  Its catch block logs,
shows an error toast via handleGoogleCalendarError and rethrows. -/
def initGoogleCalendar (env : Env) (st : CalState) (tr : Trace) :
    Except JSError Unit × CalState × Trace :=
  if st.isInitialized then (.ok (), st, tr)
  else
    match validateEnvVars env with
    | .error e =>
      (.error e, st,
        handleGoogleCalendarError e { tr with consoleErrors := tr.consoleErrors + 1 })
    | .ok () =>
      let tr1 := { tr with gisScriptLoadAttempts := tr.gisScriptLoadAttempts + 1 }
      if !env.gisScriptLoads then
        (.error .gisLoadFailed, st,
          handleGoogleCalendarError .gisLoadFailed
            { tr1 with consoleErrors := tr1.consoleErrors + 1 })
      else
        (.ok (), { st with tokenClientSet := true, isInitialized := true }, tr1)

/-- Lines 98-117: the token acquisition branch of addToGoogleCalendar.
With a stored token its access_token is used directly; otherwise the
token client is required, requestAccessToken is invoked (counted in the
trace), and the callback either rejects with the reported error or
resolves, after which storeTokenInfo persists the response. -/
def resolveAccessToken (env : Env) (st : CalState) (tr : Trace)
    (storedToken : Option StoredTokenInfo) :
    Except JSError String × CalState × Trace :=
  match storedToken with
  | some t => (.ok t.access_token, st, tr)
  | none =>
    if !st.tokenClientSet then (.error .tokenClientNotInitialized, st, tr)
    else
      let tr1 := { tr with requestAccessTokenCalls := tr.requestAccessTokenCalls + 1 }
      let response := env.tokenResponse
      if response.error = "" then
        (.ok response.access_token,
          { st with storage := some (storeTokenInfo env.now response) }, tr1)
      else
        (.error (.authError response.error), st, tr1)

/-- Lines 164-188: loadGapiClient.  Re-checks window.gapi?.client, then
loads api.js, runs gapi.load('client'), and gapi.client.init.  The gapi
client handle appears once the load callback fires, before init runs. -/
def loadGapiClient (env : Env) (st : CalState) (tr : Trace) :
    Except JSError Unit × CalState × Trace :=
  if st.gapiClientLoaded then (.ok (), st, tr)
  else
    let tr1 := { tr with gapiScriptLoadAttempts := tr.gapiScriptLoadAttempts + 1 }
    if !env.gapiScriptLoads then (.error .gapiScriptLoadFailed, st, tr1)
    else
      match env.gapiClientLoads with
      | .onerror => (.error .gapiLoadFailed, st, tr1)
      | .ontimeout => (.error .gapiLoadTimeout, st, tr1)
      | .ok =>
        let st1 := { st with gapiClientLoaded := true }
        if !env.gapiInitOk then (.error .gapiInitFailed, st1, tr1)
        else (.ok (), st1, tr1)

/-- Lines 131-149: the event literal.  summary and description are built
from the subscription fields, start and end both apply date-fns format
to the renewal date with the resolved timezone, and the two fixed
reminder overrides are email at 24*60 minutes and popup at 30 minutes. -/
def buildCalendarEvent (env : Env) (subscription : Subscription) : CalendarEvent :=
  { summary := subscription.name ++ " Subscription Renewal",
    description := "Renewal for " ++ subscription.name ++ " subscription - "
      ++ subscription.price,
    start := { dateTime := env.formatDate subscription.renewalDate,
               timeZone := env.timeZone },
    «end» := { dateTime := env.formatDate subscription.renewalDate,
               timeZone := env.timeZone },
    reminders := { useDefault := false,
                   overrides := [ { method := "email", minutes := 24 * 60 },
                                  { method := "popup", minutes := 30 } ] } }

/-- Lines 92-156: the continuation of the try block of
addToGoogleCalendar after the initialization check: reads the token
cache (line 93), resolves an access token (lines 95-118), ensures the
gapi client (lines 121-123), sets the token on the client (line 126),
builds and inserts the event (lines 131-154) and shows the success
toast (line 156). -/
def addAfterInit (env : Env) (subscription : Subscription)
    (st : CalState) (tr : Trace) :
    Except JSError Unit × CalState × Trace :=
  match getStoredToken st.storage env.now with
  | .error e => (.error e, st, tr)
  | .ok (storedToken, storage1) =>
    match resolveAccessToken env { st with storage := storage1 } tr storedToken with
    | (.error e, st2, tr2) => (.error e, st2, tr2)
    | (.ok accessToken, st2, tr2) =>
      match (if st2.gapiClientLoaded then (.ok (), st2, tr2)
             else loadGapiClient env st2 tr2) with
      | (.error e, st3, tr3) => (.error e, st3, tr3)
      | (.ok (), st3a, tr3) =>
        let st3 := { st3a with tokenSetTo := some accessToken }
        let event := buildCalendarEvent env subscription
        if env.insertOk then
          (.ok (), st3,
            { tr3 with eventsInserted := tr3.eventsInserted ++ [event],
                       successToasts := tr3.successToasts + 1 })
        else
          (.error (.insertFailed env.insertErrorMsg), st3, tr3)

/-- Lines 87-156: the try block of addToGoogleCalendar.  Initializes if
needed (lines 88-90, delegating to initGoogleCalendar, whose own catch
already toasts), then runs the continuation addAfterInit. -/
def addToGoogleCalendarTry (env : Env) (subscription : Subscription)
    (st : CalState) (tr : Trace) :
    Except JSError Unit × CalState × Trace :=
  match (if st.isInitialized then (.ok (), st, tr) else initGoogleCalendar env st tr) with
  | (.error e, st1, tr1) => (.error e, st1, tr1)
  | (.ok (), st1, tr1) => addAfterInit env subscription st1 tr1

/-- Lines 82-162: addToGoogleCalendar is the try block wrapped in the
catch that logs, shows an error toast and rethrows. -/
def addToGoogleCalendar (env : Env) (subscription : Subscription)
    (st : CalState) (tr : Trace) :
    Except JSError Unit × CalState × Trace :=
  match addToGoogleCalendarTry env subscription st tr with
  | (.ok (), st1, tr1) => (.ok (), st1, tr1)
  | (.error e, st1, tr1) =>
    (.error e, st1,
      handleGoogleCalendarError e { tr1 with consoleErrors := tr1.consoleErrors + 1 })

/-- Condition under which a fresh initGoogleCalendar run succeeds:
both credentials present and the GIS script load event fires. -/
def initSucceeds (env : Env) : Bool :=
  env.googleApiKeyPresent && env.googleClientIdPresent && env.gisScriptLoads

/-!
Small-step model of initGoogleCalendar for reasoning about interleaved
invocations on the event loop.  One invocation runs two synchronous
segments: segment one (the body up to the await at line 56) checks the
isInitialized flag, validates the credentials, and appends the GIS
script tag — it then suspends until the load or error event fires;
segment two (the continuation after the await) builds the token client
and sets isInitialized, or runs the catch block when loading failed.
Between the two segments other tasks may run, and a second invocation
started there still sees isInitialized = false.
-/

/-- Progress of one initGoogleCalendar invocation: not yet started,
suspended at the script-load await, or completed with a result. -/
inductive InitPhase where
  | notStarted
  | awaitingGisLoad
  | done (result : Except JSError Unit)
deriving Repr

/-- The state shared by all tasks: module state plus effect trace. -/
structure Glob where
  st : CalState
  tr : Trace
deriving DecidableEq, Repr

/-- Runs the next synchronous segment of one initGoogleCalendar
invocation.  Segment one: early return on the flag, validateEnvVars,
then the script append (counted as a load attempt).  Segment two:
resolution of the script load.  Both failure segments run the catch
block of lines 75-79. -/
def initStep (env : Env) (ph : InitPhase) (g : Glob) : InitPhase × Glob :=
  match ph with
  | .notStarted =>
    if g.st.isInitialized then (.done (.ok ()), g)
    else
      match validateEnvVars env with
      | .error e =>
        (.done (.error e),
          { g with tr := (handleGoogleCalendarError e
              { g.tr with consoleErrors := g.tr.consoleErrors + 1 }) })
      | .ok () =>
        (.awaitingGisLoad,
          { g with tr := { g.tr with
              gisScriptLoadAttempts := g.tr.gisScriptLoadAttempts + 1 } })
  | .awaitingGisLoad =>
    if env.gisScriptLoads then
      (.done (.ok ()),
        { g with st := { g.st with tokenClientSet := true, isInitialized := true } })
    else
      (.done (.error .gisLoadFailed),
        { g with tr := (handleGoogleCalendarError .gisLoadFailed
            { g.tr with consoleErrors := g.tr.consoleErrors + 1 }) })
  | .done r => (.done r, g)

/-- Two initGoogleCalendar invocations plus the shared state. -/
structure TwoTasks where
  ph0 : InitPhase
  ph1 : InitPhase
  g : Glob
deriving Repr

/-- Runs a schedule: each entry names the task whose next segment the
event loop runs (false = first invocation, true = second). -/
def runSchedule (env : Env) : List Bool → TwoTasks → TwoTasks
  | [], s => s
  | b :: rest, s =>
    if b then
      let (ph, g) := initStep env s.ph1 s.g
      runSchedule env rest { s with ph1 := ph, g := g }
    else
      let (ph, g) := initStep env s.ph0 s.g
      runSchedule env rest { s with ph0 := ph, g := g }

/-!  Concrete fixtures used by witnesses and counterexamples. -/

/-- The fresh module state: nothing initialized, empty token cache. -/
def st0 : CalState :=
  { isInitialized := false, tokenClientSet := false, storage := none,
    gapiClientLoaded := false, tokenSetTo := none }

/-- The empty trace. -/
def tr0 : Trace :=
  { gisScriptLoadAttempts := 0, requestAccessTokenCalls := 0,
    gapiScriptLoadAttempts := 0, eventsInserted := [], successToasts := 0,
    errorToasts := [], consoleErrors := 0 }

/-- An environment in which every external interaction succeeds. -/
def goodEnv : Env :=
  { googleApiKeyPresent := true, googleClientIdPresent := true,
    gisScriptLoads := true,
    tokenResponse := { access_token := "tok", expires_in := 3600, error := "" },
    gapiScriptLoads := true, gapiClientLoads := .ok, gapiInitOk := true,
    insertOk := true, insertErrorMsg := "", now := 1000,
    formatDate := fun s => s, timeZone := "UTC" }

/-- The sample subscription of the end-to-end scenario of the spec. -/
def netflixSub : Subscription :=
  { name := "Netflix", price := "$15.99", renewalDate := "2025-03-01T00:00:00Z" }

/-- A sample stored token that is still valid at goodEnv.now = 1000. -/
def sampleToken : StoredTokenInfo := { access_token := "cached", expires_at := 5000 }

/-- Module state holding sampleToken with everything already initialized. -/
def stReady : CalState :=
  { isInitialized := true, tokenClientSet := true,
    storage := some (.json sampleToken), gapiClientLoaded := true,
    tokenSetTo := none }

/-- Initialized module state with an empty token cache. -/
def stAuthReady : CalState :=
  { isInitialized := true, tokenClientSet := true, storage := none,
    gapiClientLoaded := true, tokenSetTo := none }

/-- goodEnv with the API key credential absent. -/
def badCredsEnv : Env := { goodEnv with googleApiKeyPresent := false }

/-- goodEnv in which the events.insert call is rejected. -/
def insertFailEnv : Env :=
  { goodEnv with insertOk := false, insertErrorMsg := "quota exceeded" }

/-- True when an invocation has completed successfully. -/
def InitPhase.isDoneOk : InitPhase → Bool
  | .done (.ok _) => true
  | _ => false

/-- The module invariant relating the two module-level variables:
whenever isInitialized is true the token client is non-null. -/
def tokenClientInv (st : CalState) : Prop :=
  st.isInitialized = true → st.tokenClientSet = true

/-- The initial TwoTasks configuration: both invocations pending on the
fresh module state. -/
def twoFresh : TwoTasks :=
  { ph0 := .notStarted, ph1 := .notStarted, g := { st := st0, tr := tr0 } }

/-! Helper lemmas about the individual stages of the flow. -/

/-- initGoogleCalendar only touches the two init flags, the load-attempt
counter and the error reporting fields. -/
theorem initGoogleCalendar_shape (env : Env) (st : CalState) (tr : Trace) :
    ∃ b1 b2 n ts c,
      (initGoogleCalendar env st tr).2.1 =
        { st with isInitialized := b1, tokenClientSet := b2 } ∧
      (initGoogleCalendar env st tr).2.2 =
        { tr with gisScriptLoadAttempts := n, errorToasts := ts,
                  consoleErrors := c } := by
  unfold initGoogleCalendar validateEnvVars handleGoogleCalendarError
  repeat' split
  all_goals exact ⟨_, _, _, _, _, rfl, rfl⟩

/-- A fresh initGoogleCalendar run in an environment where credentials
are present and the GIS script loads: one load attempt, both flags set,
no toast. -/
theorem initGoogleCalendar_ok (env : Env) (st : CalState) (tr : Trace)
    (hni : st.isInitialized = false) (hok : initSucceeds env = true) :
    initGoogleCalendar env st tr =
      (.ok (), { st with tokenClientSet := true, isInitialized := true },
        { tr with gisScriptLoadAttempts := tr.gisScriptLoadAttempts + 1 }) := by
  simp only [initSucceeds, Bool.and_eq_true] at hok
  obtain ⟨⟨hk, hc⟩, hg⟩ := hok
  simp [initGoogleCalendar, validateEnvVars, hni, hk, hc, hg]

/-- A fresh initGoogleCalendar run that fails: the state is untouched,
the error is toasted once, logged twice, and rethrown. -/
theorem initGoogleCalendar_fail (env : Env) (st : CalState) (tr : Trace)
    (hni : st.isInitialized = false) (hbad : initSucceeds env = false) :
    ∃ e, (initGoogleCalendar env st tr).1 = .error e ∧
      (initGoogleCalendar env st tr).2.1 = st ∧
      (initGoogleCalendar env st tr).2.2.errorToasts = tr.errorToasts ++ [e] ∧
      (initGoogleCalendar env st tr).2.2.successToasts = tr.successToasts ∧
      (initGoogleCalendar env st tr).2.2.consoleErrors = tr.consoleErrors + 2 ∧
      (initGoogleCalendar env st tr).2.2.requestAccessTokenCalls =
        tr.requestAccessTokenCalls ∧
      (initGoogleCalendar env st tr).2.2.eventsInserted = tr.eventsInserted := by
  unfold initSucceeds at hbad
  unfold initGoogleCalendar validateEnvVars handleGoogleCalendarError
  rcases h1 : env.googleApiKeyPresent <;> rcases h2 : env.googleClientIdPresent <;>
    rcases h3 : env.gisScriptLoads <;> simp_all

/-- resolveAccessToken only touches the storage cell and the
request-access-token counter. -/
theorem resolveAccessToken_shape (env : Env) (st : CalState) (tr : Trace)
    (storedToken : Option StoredTokenInfo) :
    ∃ sto n,
      (resolveAccessToken env st tr storedToken).2.1 = { st with storage := sto } ∧
      (resolveAccessToken env st tr storedToken).2.2 =
        { tr with requestAccessTokenCalls := n } := by
  unfold resolveAccessToken
  dsimp only
  repeat' split
  all_goals exact ⟨_, _, rfl, rfl⟩

/-- loadGapiClient only touches the gapi handle flag and the
gapi-script-load counter. -/
theorem loadGapiClient_shape (env : Env) (st : CalState) (tr : Trace) :
    ∃ b n, (loadGapiClient env st tr).2.1 = { st with gapiClientLoaded := b } ∧
      (loadGapiClient env st tr).2.2 = { tr with gapiScriptLoadAttempts := n } := by
  unfold loadGapiClient
  dsimp only
  repeat' split
  all_goals exact ⟨_, _, rfl, rfl⟩

/-- addAfterInit never toasts an error or logs to the console, and on a
rejection it shows no success toast either. -/
theorem addAfterInit_trace (env : Env) (sub : Subscription) (st : CalState)
    (tr : Trace) :
    (addAfterInit env sub st tr).2.2.errorToasts = tr.errorToasts ∧
    (addAfterInit env sub st tr).2.2.consoleErrors = tr.consoleErrors ∧
    (∀ e, (addAfterInit env sub st tr).1 = .error e →
      (addAfterInit env sub st tr).2.2.successToasts = tr.successToasts) := by
  unfold addAfterInit
  cases hg : getStoredToken st.storage env.now with
  | error e1 => simp
  | ok p =>
    obtain ⟨s1, sto1⟩ := p
    dsimp only
    rcases hr : resolveAccessToken env { st with storage := sto1 } tr s1 with ⟨r2, st2, tr2⟩
    have hshape := resolveAccessToken_shape env { st with storage := sto1 } tr s1
    rw [hr] at hshape
    obtain ⟨sto2, n2, hst2, htr2⟩ := hshape
    dsimp only at hst2 htr2
    subst hst2; subst htr2
    cases r2 with
    | error e2 => simp
    | ok tok =>
      dsimp only
      cases hb : ({ st with storage := sto2 } : CalState).gapiClientLoaded with
      | true =>
        simp only [hb, if_true]
        cases hio : env.insertOk <;> simp [hio]
      | false =>
        simp only [hb, Bool.false_eq_true, if_false]
        rcases hl : loadGapiClient env
            { st with storage := sto2, gapiClientLoaded := false }
            { tr with requestAccessTokenCalls := n2 } with ⟨r3, st3, tr3⟩
        have hshape3 := loadGapiClient_shape env
            { st with storage := sto2, gapiClientLoaded := false }
            { tr with requestAccessTokenCalls := n2 }
        rw [hl] at hshape3
        obtain ⟨b3, n3, hst3, htr3⟩ := hshape3
        dsimp only at hst3 htr3
        subst hst3; subst htr3
        cases r3 with
        | error e3 => simp
        | ok u =>
          dsimp only
          cases hio : env.insertOk <;> simp [hio]

/-- Any error returned by getStoredToken is a JSON parse error. -/
theorem getStoredToken_error_shape (storage : Option StoredValue) (now : Nat)
    (e : JSError) (h : getStoredToken storage now = .error e) :
    ∃ s, e = .jsonParseError s := by
  unfold getStoredToken at h
  rcases storage with _ | (t | s) <;> simp_all
  · split at h <;> simp_all
  · exact ⟨s, h.symm⟩

/-- With a non-null token client, resolveAccessToken never rejects with
the token-client-not-initialized error. -/
theorem resolveAccessToken_no_tcni (env : Env) (st : CalState) (tr : Trace)
    (s : Option StoredTokenInfo) (htc : st.tokenClientSet = true) :
    (resolveAccessToken env st tr s).1 ≠ .error .tokenClientNotInitialized := by
  unfold resolveAccessToken
  rcases s with _ | t
  · dsimp only
    simp only [htc, Bool.not_true, Bool.false_eq_true, if_false]
    split <;> simp
  · simp

/-- loadGapiClient never rejects with the token-client error. -/
theorem loadGapiClient_no_tcni (env : Env) (st : CalState) (tr : Trace) :
    (loadGapiClient env st tr).1 ≠ .error .tokenClientNotInitialized := by
  unfold loadGapiClient
  dsimp only
  repeat' split
  all_goals simp

/-- addAfterInit leaves the two init flags untouched, and with a
non-null token client it never rejects with the token-client error. -/
theorem addAfterInit_master (env : Env) (sub : Subscription) (st : CalState)
    (tr : Trace) :
    (addAfterInit env sub st tr).2.1.isInitialized = st.isInitialized ∧
    (addAfterInit env sub st tr).2.1.tokenClientSet = st.tokenClientSet ∧
    (st.tokenClientSet = true →
      (addAfterInit env sub st tr).1 ≠ .error .tokenClientNotInitialized) := by
  unfold addAfterInit
  cases hg : getStoredToken st.storage env.now with
  | error e1 =>
    refine ⟨rfl, rfl, fun htc hc => ?_⟩
    obtain ⟨s, hs⟩ := getStoredToken_error_shape st.storage env.now e1 hg
    simp_all
  | ok p =>
    obtain ⟨s1, sto1⟩ := p
    dsimp only
    rcases hr : resolveAccessToken env { st with storage := sto1 } tr s1 with ⟨r2, st2, tr2⟩
    have hshape := resolveAccessToken_shape env { st with storage := sto1 } tr s1
    rw [hr] at hshape
    obtain ⟨sto2, n2, hst2, htr2⟩ := hshape
    dsimp only at hst2 htr2
    subst hst2; subst htr2
    cases r2 with
    | error e2 =>
      refine ⟨rfl, rfl, fun htc hc => ?_⟩
      have hne := resolveAccessToken_no_tcni env { st with storage := sto1 } tr s1 htc
      rw [hr] at hne
      simp_all
    | ok tok =>
      dsimp only
      cases hb : ({ st with storage := sto2 } : CalState).gapiClientLoaded with
      | true =>
        simp only [hb, if_true]
        cases hio : env.insertOk <;> simp [hio]
      | false =>
        simp only [hb, Bool.false_eq_true, if_false]
        rcases hl : loadGapiClient env
            { st with storage := sto2, gapiClientLoaded := false }
            { tr with requestAccessTokenCalls := n2 } with ⟨r3, st3, tr3⟩
        have hshape3 := loadGapiClient_shape env
            { st with storage := sto2, gapiClientLoaded := false }
            { tr with requestAccessTokenCalls := n2 }
        rw [hl] at hshape3
        obtain ⟨b3, n3, hst3, htr3⟩ := hshape3
        dsimp only at hst3 htr3
        subst hst3; subst htr3
        cases r3 with
        | error e3 =>
          refine ⟨rfl, rfl, fun htc hc => ?_⟩
          have hne := loadGapiClient_no_tcni env
              { st with storage := sto2, gapiClientLoaded := false }
              { tr with requestAccessTokenCalls := n2 }
          rw [hl] at hne
          simp_all
        | ok u =>
          dsimp only
          cases hio : env.insertOk <;> simp [hio]

/-- With a valid cached token and the gapi client already loaded,
addAfterInit reduces to the insert step: it sets the cached token on the
client, inserts the built event and toasts success, or rejects with the
insert error. -/
theorem addAfterInit_submits (env : Env) (sub : Subscription) (st : CalState)
    (tr : Trace) (t : StoredTokenInfo)
    (hstore : st.storage = some (.json t))
    (hvalid : env.now < t.expires_at)
    (hgapi : st.gapiClientLoaded = true) :
    addAfterInit env sub st tr =
      ((if env.insertOk then .ok () else .error (.insertFailed env.insertErrorMsg)),
        { st with tokenSetTo := some t.access_token },
        (if env.insertOk then
          { tr with eventsInserted := tr.eventsInserted ++ [buildCalendarEvent env sub],
                    successToasts := tr.successToasts + 1 }
        else tr)) := by
  unfold addAfterInit
  have hg : getStoredToken st.storage env.now = .ok (some t, some (.json t)) := by
    simp [getStoredToken, hstore, Nat.not_le.mpr hvalid]
  rw [hg]
  simp only [resolveAccessToken]
  dsimp only
  rw [if_pos hgapi]
  cases hio : env.insertOk <;> simp [hio, hstore]

/-- With a valid cached token, addAfterInit never calls
requestAccessToken, whatever the rest of the environment does. -/
theorem addAfterInit_valid_token_no_request (env : Env) (sub : Subscription)
    (st : CalState) (tr : Trace) (t : StoredTokenInfo)
    (hstore : st.storage = some (.json t))
    (hvalid : env.now < t.expires_at) :
    (addAfterInit env sub st tr).2.2.requestAccessTokenCalls =
      tr.requestAccessTokenCalls := by
  unfold addAfterInit
  have hg : getStoredToken st.storage env.now = .ok (some t, some (.json t)) := by
    simp [getStoredToken, hstore, Nat.not_le.mpr hvalid]
  rw [hg]
  simp only [resolveAccessToken]
  dsimp only
  cases hb : st.gapiClientLoaded with
  | true =>
    cases hio : env.insertOk <;> simp [hio]
  | false =>
    rw [if_neg (by simp)]
    rcases hl : loadGapiClient env
        { st with storage := some (.json t), gapiClientLoaded := false } tr
      with ⟨r3, st3, tr3⟩
    have hshape3 := loadGapiClient_shape env
        { st with storage := some (.json t), gapiClientLoaded := false } tr
    rw [hl] at hshape3
    obtain ⟨b3, n3, hst3, htr3⟩ := hshape3
    dsimp only at hst3 htr3
    subst hst3; subst htr3
    cases r3 with
    | error e3 => simp
    | ok u => cases hio : env.insertOk <;> simp [hio]

/-- The catch wrapper of addToGoogleCalendar: result and state pass
through, and only the error reporting fields of the trace change. -/
theorem addToGoogleCalendar_unfold_trace (env : Env) (sub : Subscription)
    (st : CalState) (tr : Trace) :
    (addToGoogleCalendar env sub st tr).1 = (addToGoogleCalendarTry env sub st tr).1 ∧
    (addToGoogleCalendar env sub st tr).2.1 = (addToGoogleCalendarTry env sub st tr).2.1 ∧
    (addToGoogleCalendar env sub st tr).2.2.requestAccessTokenCalls =
      (addToGoogleCalendarTry env sub st tr).2.2.requestAccessTokenCalls ∧
    (addToGoogleCalendar env sub st tr).2.2.eventsInserted =
      (addToGoogleCalendarTry env sub st tr).2.2.eventsInserted ∧
    (addToGoogleCalendar env sub st tr).2.2.successToasts =
      (addToGoogleCalendarTry env sub st tr).2.2.successToasts ∧
    (addToGoogleCalendar env sub st tr).2.2.gisScriptLoadAttempts =
      (addToGoogleCalendarTry env sub st tr).2.2.gisScriptLoadAttempts := by
  unfold addToGoogleCalendar
  rcases h : addToGoogleCalendarTry env sub st tr with ⟨r, st1, tr1⟩
  cases r with
  | ok u => cases u; simp
  | error e => simp [handleGoogleCalendarError]

/-- When the try block of addToGoogleCalendar rejects, the trace shows
one error toast if the rejection arose in a failing initialization (the
catch of initGoogleCalendar) and none otherwise, and never a success
toast. -/
theorem addToGoogleCalendarTry_error_trace (env : Env) (sub : Subscription)
    (st : CalState) (tr : Trace) (e : JSError)
    (herr : (addToGoogleCalendarTry env sub st tr).1 = .error e) :
    (addToGoogleCalendarTry env sub st tr).2.2.errorToasts =
      tr.errorToasts ++
        (if st.isInitialized = false ∧ initSucceeds env = false then [e] else []) ∧
    (addToGoogleCalendarTry env sub st tr).2.2.successToasts = tr.successToasts ∧
    (addToGoogleCalendarTry env sub st tr).2.2.consoleErrors =
      tr.consoleErrors +
        (if st.isInitialized = false ∧ initSucceeds env = false then 2 else 0) := by
  unfold addToGoogleCalendarTry at herr ⊢
  cases hini : st.isInitialized with
  | true =>
    simp only [hini, if_true] at herr ⊢
    have htrace := addAfterInit_trace env sub st tr
    simp only [Bool.true_eq_false, false_and, if_false, List.append_nil, Nat.add_zero]
    exact ⟨htrace.1, htrace.2.2 e herr, htrace.2.1⟩
  | false =>
    cases hs : initSucceeds env with
    | true =>
      rw [initGoogleCalendar_ok env st tr hini hs] at herr ⊢
      simp only [hini, Bool.false_eq_true, if_false] at herr ⊢
      simp only [hs, Bool.true_eq_false, and_false, if_false, List.append_nil,
        Nat.add_zero]
      have htrace := addAfterInit_trace env sub
          { st with tokenClientSet := true, isInitialized := true }
          { tr with gisScriptLoadAttempts := tr.gisScriptLoadAttempts + 1 }
      exact ⟨htrace.1, htrace.2.2 e herr, htrace.2.1⟩
    | false =>
      obtain ⟨e1, hr1, hst1, htoast, hsucc, hcons, hreq, hev⟩ :=
        initGoogleCalendar_fail env st tr hini hs
      simp only [hini, Bool.false_eq_true, if_false] at herr ⊢
      rcases hI : initGoogleCalendar env st tr with ⟨r1, st1, tr1⟩
      rw [hI] at hr1 htoast hsucc hcons herr
      dsimp only at hr1 htoast hsucc hcons herr
      subst hr1
      dsimp only at herr ⊢
      simp only [and_self, if_true]
      injection herr with he
      subst he
      exact ⟨htoast, hsucc, hcons⟩

/-! Claim theorems. -/

/-- C1: for every stored token, getStoredToken called while now is
before expires_at returns the exact stored token and leaves the entry in
place; called once now has reached expires_at it deletes the entry and
returns absent; and a missing entry also returns absent — in all cases
without raising an error. -/
theorem getStoredToken_read_spec (t : StoredTokenInfo) (now : Nat) :
    (now < t.expires_at →
      getStoredToken (some (.json t)) now = .ok (some t, some (.json t))) ∧
    (t.expires_at ≤ now →
      getStoredToken (some (.json t)) now = .ok (none, none)) ∧
    getStoredToken none now = .ok (none, none) := by
  refine ⟨fun h => ?_, fun h => ?_, rfl⟩
  · simp [getStoredToken, Nat.not_le.mpr h]
  · simp [getStoredToken, h]

/-- Witness for C1 at concrete clock values around sampleToken. -/
theorem getStoredToken_read_spec_witness :
    getStoredToken (some (.json sampleToken)) 1000 =
      .ok (some sampleToken, some (.json sampleToken)) ∧
    getStoredToken (some (.json sampleToken)) 6000 = .ok (none, none) :=
  ⟨(getStoredToken_read_spec sampleToken 1000).1 (by decide),
   (getStoredToken_read_spec sampleToken 6000).2.1 (by decide)⟩

/-- C9: when the stored value under the token key is present but not
valid JSON, getStoredToken propagates the JSON.parse exception instead
of treating the entry as absent. -/
theorem getStoredToken_corrupt_raises (s : String) (now : Nat) :
    getStoredToken (some (.corrupt s)) now = .error (.jsonParseError s) := rfl

/-- C5: a first initGoogleCalendar call that succeeds performs exactly
one script-load attempt and sets the flag; a second sequential call, in
any environment, resolves immediately without changing state or trace. -/
theorem initGoogleCalendar_sequentially_idempotent
    (env env2 : Env) (st : CalState) (tr : Trace)
    (hni : st.isInitialized = false) (hok : initSucceeds env = true) :
    (initGoogleCalendar env st tr).1 = .ok () ∧
    (initGoogleCalendar env st tr).2.2.gisScriptLoadAttempts =
      tr.gisScriptLoadAttempts + 1 ∧
    (initGoogleCalendar env st tr).2.1.isInitialized = true ∧
    initGoogleCalendar env2 (initGoogleCalendar env st tr).2.1
        (initGoogleCalendar env st tr).2.2 =
      (.ok (), (initGoogleCalendar env st tr).2.1,
        (initGoogleCalendar env st tr).2.2) := by
  rw [initGoogleCalendar_ok env st tr hni hok]
  refine ⟨rfl, rfl, rfl, ?_⟩
  simp [initGoogleCalendar]

/-- Witness for C5: both calls on the fresh state in goodEnv. -/
theorem initGoogleCalendar_sequentially_idempotent_witness :
    (initGoogleCalendar goodEnv st0 tr0).1 = .ok () ∧
    (initGoogleCalendar goodEnv st0 tr0).2.2.gisScriptLoadAttempts =
      tr0.gisScriptLoadAttempts + 1 ∧
    (initGoogleCalendar goodEnv st0 tr0).2.1.isInitialized = true ∧
    initGoogleCalendar goodEnv (initGoogleCalendar goodEnv st0 tr0).2.1
        (initGoogleCalendar goodEnv st0 tr0).2.2 =
      (.ok (), (initGoogleCalendar goodEnv st0 tr0).2.1,
        (initGoogleCalendar goodEnv st0 tr0).2.2) :=
  initGoogleCalendar_sequentially_idempotent goodEnv goodEnv st0 tr0 rfl rfl

/-- C6: two interleaved invocations of initGoogleCalendar — the second
starting after the first has suspended on its script load but before it
resolves — both complete successfully, yet the GIS script is loaded
twice: the guard flag is only set after the await, so the second caller
re-runs the script-loading side effect. -/
theorem initGoogleCalendar_concurrent_double_load :
    (runSchedule goodEnv [false, true, false, true] twoFresh).g.tr.gisScriptLoadAttempts
      = 2 ∧
    (runSchedule goodEnv [false, true, false, true] twoFresh).ph0.isDoneOk = true ∧
    (runSchedule goodEnv [false, true, false, true] twoFresh).ph1.isDoneOk = true ∧
    (runSchedule goodEnv [false, true, false, true] twoFresh).g.st.isInitialized
      = true :=
  ⟨rfl, rfl, rfl, rfl⟩

/-- C3: when the token cache holds a token still valid at the cache-read
step, an addToGoogleCalendar invocation never calls requestAccessToken —
no interactive consent prompt is triggered, whatever else happens. -/
theorem addToGoogleCalendar_no_consent_on_valid_token
    (env : Env) (sub : Subscription) (st : CalState) (tr : Trace)
    (t : StoredTokenInfo)
    (hstore : st.storage = some (.json t))
    (hvalid : env.now < t.expires_at) :
    (addToGoogleCalendar env sub st tr).2.2.requestAccessTokenCalls =
      tr.requestAccessTokenCalls := by
  rw [(addToGoogleCalendar_unfold_trace env sub st tr).2.2.1]
  unfold addToGoogleCalendarTry
  cases hini : st.isInitialized with
  | true =>
    rw [if_pos rfl]
    exact addAfterInit_valid_token_no_request env sub st tr t hstore hvalid
  | false =>
    rw [if_neg (by simp)]
    rcases hI : initGoogleCalendar env st tr with ⟨r1, st1, tr1⟩
    have hsh := initGoogleCalendar_shape env st tr
    rw [hI] at hsh
    obtain ⟨b1, b2, n, ts, c, hst1, htr1⟩ := hsh
    dsimp only at hst1 htr1
    subst hst1; subst htr1
    cases r1 with
    | error e => simp
    | ok u =>
      cases u
      dsimp only
      exact addAfterInit_valid_token_no_request env sub
        { st with isInitialized := b1, tokenClientSet := b2 }
        { tr with gisScriptLoadAttempts := n, errorToasts := ts, consoleErrors := c }
        t hstore hvalid

/-- Witness for C3: with the valid sampleToken cached, a full run in
goodEnv performs no requestAccessToken call. -/
theorem addToGoogleCalendar_no_consent_witness :
    (addToGoogleCalendar goodEnv netflixSub stReady tr0).2.2.requestAccessTokenCalls =
      tr0.requestAccessTokenCalls :=
  addToGoogleCalendar_no_consent_on_valid_token goodEnv netflixSub stReady tr0
    sampleToken rfl (by decide)

/-- C2: in a run that reaches the submission step with a valid cached
token, exactly the built event is appended to the submitted list, and
that event has summary name plus the fixed suffix, a description
containing the name and the price, identical start and end timestamps,
and exactly the two reminder overrides email at 1440 minutes and popup
at 30 minutes. -/
theorem addToGoogleCalendar_event_shape
    (env : Env) (sub : Subscription) (st : CalState) (tr : Trace)
    (t : StoredTokenInfo)
    (hinit : st.isInitialized = true)
    (hstore : st.storage = some (.json t))
    (hvalid : env.now < t.expires_at)
    (hgapi : st.gapiClientLoaded = true)
    (hins : env.insertOk = true) :
    (addToGoogleCalendar env sub st tr).2.2.eventsInserted =
      tr.eventsInserted ++ [buildCalendarEvent env sub] ∧
    (buildCalendarEvent env sub).summary = sub.name ++ " Subscription Renewal" ∧
    (∃ a b c, (buildCalendarEvent env sub).description =
      a ++ sub.name ++ b ++ sub.price ++ c) ∧
    (buildCalendarEvent env sub).start = (buildCalendarEvent env sub).«end» ∧
    (buildCalendarEvent env sub).reminders.overrides =
      [{ method := "email", minutes := 1440 }, { method := "popup", minutes := 30 }] := by
  refine ⟨?_, rfl, ⟨"Renewal for ", " subscription - ", "", by
    simp [buildCalendarEvent]⟩, rfl, rfl⟩
  rw [(addToGoogleCalendar_unfold_trace env sub st tr).2.2.2.1]
  unfold addToGoogleCalendarTry
  rw [if_pos hinit]
  dsimp only
  rw [addAfterInit_submits env sub st tr t hstore hvalid hgapi]
  simp [hins]

/-- Witness for C2: the end-to-end scenario of the spec with the Netflix
subscription in goodEnv. -/
theorem addToGoogleCalendar_event_shape_witness :
    (addToGoogleCalendar goodEnv netflixSub stReady tr0).2.2.eventsInserted =
      tr0.eventsInserted ++ [buildCalendarEvent goodEnv netflixSub] ∧
    (buildCalendarEvent goodEnv netflixSub).summary =
      netflixSub.name ++ " Subscription Renewal" ∧
    (∃ a b c, (buildCalendarEvent goodEnv netflixSub).description =
      a ++ netflixSub.name ++ b ++ netflixSub.price ++ c) ∧
    (buildCalendarEvent goodEnv netflixSub).start =
      (buildCalendarEvent goodEnv netflixSub).«end» ∧
    (buildCalendarEvent goodEnv netflixSub).reminders.overrides =
      [{ method := "email", minutes := 1440 }, { method := "popup", minutes := 30 }] :=
  addToGoogleCalendar_event_shape goodEnv netflixSub stReady tr0 sampleToken
    rfl rfl (by decide) rfl rfl

/-- C7: when the event-submission step fails, addToGoogleCalendar
rejects with the underlying insert error and never shows the success
notification. -/
theorem addToGoogleCalendar_insert_failure
    (env : Env) (sub : Subscription) (st : CalState) (tr : Trace)
    (t : StoredTokenInfo)
    (hinit : st.isInitialized = true)
    (hstore : st.storage = some (.json t))
    (hvalid : env.now < t.expires_at)
    (hgapi : st.gapiClientLoaded = true)
    (hfail : env.insertOk = false) :
    (addToGoogleCalendar env sub st tr).1 =
      .error (.insertFailed env.insertErrorMsg) ∧
    (addToGoogleCalendar env sub st tr).2.2.successToasts = tr.successToasts := by
  have hw := addToGoogleCalendar_unfold_trace env sub st tr
  constructor
  · rw [hw.1]
    unfold addToGoogleCalendarTry
    rw [if_pos hinit]
    dsimp only
    rw [addAfterInit_submits env sub st tr t hstore hvalid hgapi]
    simp [hfail]
  · rw [hw.2.2.2.2.1]
    unfold addToGoogleCalendarTry
    rw [if_pos hinit]
    dsimp only
    rw [addAfterInit_submits env sub st tr t hstore hvalid hgapi]
    simp [hfail]

/-- Witness for C7: the failing insert environment on the ready state. -/
theorem addToGoogleCalendar_insert_failure_witness :
    (addToGoogleCalendar insertFailEnv netflixSub stReady tr0).1 =
      .error (.insertFailed insertFailEnv.insertErrorMsg) ∧
    (addToGoogleCalendar insertFailEnv netflixSub stReady tr0).2.2.successToasts =
      tr0.successToasts :=
  addToGoogleCalendar_insert_failure insertFailEnv netflixSub stReady tr0
    sampleToken rfl rfl (by decide) rfl rfl

/-- When the cache read yields no token and the interactive token
request succeeds, addAfterInit persists the token response via
storeTokenInfo and performs exactly one requestAccessToken call; the
stored cell survives to the end of the invocation. -/
theorem addAfterInit_fresh_auth (env : Env) (sub : Subscription)
    (st : CalState) (tr : Trace)
    (htc : st.tokenClientSet = true)
    (hread : getStoredToken st.storage env.now = .ok (none, none))
    (hnoerr : env.tokenResponse.error = "") :
    (addAfterInit env sub st tr).2.1.storage =
      some (storeTokenInfo env.now env.tokenResponse) ∧
    (addAfterInit env sub st tr).2.2.requestAccessTokenCalls =
      tr.requestAccessTokenCalls + 1 := by
  unfold addAfterInit
  rw [hread]
  dsimp only
  simp only [resolveAccessToken]
  rw [if_neg (by simp [htc])]
  rw [if_pos hnoerr]
  dsimp only
  cases hb : st.gapiClientLoaded with
  | true =>
    cases hio : env.insertOk <;> simp [hio]
  | false =>
    rw [if_neg (by simp)]
    rcases hl : loadGapiClient env
        { st with storage := some (storeTokenInfo env.now env.tokenResponse),
                  gapiClientLoaded := false }
        { tr with requestAccessTokenCalls := tr.requestAccessTokenCalls + 1 }
      with ⟨r3, st3, tr3⟩
    have hshape3 := loadGapiClient_shape env
        { st with storage := some (storeTokenInfo env.now env.tokenResponse),
                  gapiClientLoaded := false }
        { tr with requestAccessTokenCalls := tr.requestAccessTokenCalls + 1 }
    rw [hl] at hshape3
    obtain ⟨b3, n3, hst3, htr3⟩ := hshape3
    dsimp only at hst3 htr3
    subst hst3; subst htr3
    cases r3 with
    | error e3 => simp
    | ok u => cases hio : env.insertOk <;> simp [hio]

/-- C4: after a run in which the cache was empty and requestToken
succeeded, the cell under the fixed key holds exactly
accessToken = access_token of the response and
expiresAt = now + expires_in * 1000 (overwriting the prior cell
contents), one requestAccessToken call occurred, and a later read
within the validity window returns that very token and keeps it. -/
theorem tokenCache_roundtrip
    (env : Env) (sub : Subscription) (st : CalState) (tr : Trace) (now2 : Nat)
    (hinit : st.isInitialized = true)
    (htc : st.tokenClientSet = true)
    (hread : getStoredToken st.storage env.now = .ok (none, none))
    (hnoerr : env.tokenResponse.error = "")
    (hvalid : now2 < env.now + env.tokenResponse.expires_in * 1000) :
    (addToGoogleCalendar env sub st tr).2.1.storage =
      some (storeTokenInfo env.now env.tokenResponse) ∧
    storeTokenInfo env.now env.tokenResponse =
      .json { access_token := env.tokenResponse.access_token,
              expires_at := env.now + env.tokenResponse.expires_in * 1000 } ∧
    (addToGoogleCalendar env sub st tr).2.2.requestAccessTokenCalls =
      tr.requestAccessTokenCalls + 1 ∧
    getStoredToken (addToGoogleCalendar env sub st tr).2.1.storage now2 =
      .ok (some { access_token := env.tokenResponse.access_token,
                  expires_at := env.now + env.tokenResponse.expires_in * 1000 },
        (addToGoogleCalendar env sub st tr).2.1.storage) := by
  have hfresh := addAfterInit_fresh_auth env sub st tr htc hread hnoerr
  have hTryState : (addToGoogleCalendarTry env sub st tr).2.1.storage =
      some (storeTokenInfo env.now env.tokenResponse) := by
    unfold addToGoogleCalendarTry
    rw [if_pos hinit]
    exact hfresh.1
  have hTryReq : (addToGoogleCalendarTry env sub st tr).2.2.requestAccessTokenCalls =
      tr.requestAccessTokenCalls + 1 := by
    unfold addToGoogleCalendarTry
    rw [if_pos hinit]
    exact hfresh.2
  have hw := addToGoogleCalendar_unfold_trace env sub st tr
  have hstate : (addToGoogleCalendar env sub st tr).2.1.storage =
      some (storeTokenInfo env.now env.tokenResponse) := by
    rw [hw.2.1]; exact hTryState
  refine ⟨hstate, rfl, ?_, ?_⟩
  · rw [hw.2.2.1]; exact hTryReq
  · rw [hstate]
    simp [getStoredToken, storeTokenInfo, Nat.not_le.mpr hvalid]

/-- Witness for C4: fresh authorization in goodEnv from the initialized
state with an expired entry in the cache, read back at time 2000. -/
theorem tokenCache_roundtrip_witness :
    (addToGoogleCalendar goodEnv netflixSub stAuthReady tr0).2.1.storage =
      some (storeTokenInfo goodEnv.now goodEnv.tokenResponse) ∧
    storeTokenInfo goodEnv.now goodEnv.tokenResponse =
      .json { access_token := goodEnv.tokenResponse.access_token,
              expires_at := goodEnv.now + goodEnv.tokenResponse.expires_in * 1000 } ∧
    (addToGoogleCalendar goodEnv netflixSub stAuthReady tr0).2.2.requestAccessTokenCalls =
      tr0.requestAccessTokenCalls + 1 ∧
    getStoredToken (addToGoogleCalendar goodEnv netflixSub stAuthReady tr0).2.1.storage
        2000 =
      .ok (some { access_token := goodEnv.tokenResponse.access_token,
                  expires_at := goodEnv.now + goodEnv.tokenResponse.expires_in * 1000 },
        (addToGoogleCalendar goodEnv netflixSub stAuthReady tr0).2.1.storage) :=
  tokenCache_roundtrip goodEnv netflixSub stAuthReady tr0 2000
    rfl rfl rfl rfl (by decide)

/-- Counterexample to C8 as stated: a configuration error arising while
the orchestrator runs initialization is caught in two catch blocks and
shown to the user as two failure notifications, not exactly one, and
logged four times. -/
theorem addToGoogleCalendar_init_error_double_toast :
    (addToGoogleCalendar badCredsEnv netflixSub st0 tr0).1 =
      .error .missingCredentials ∧
    (addToGoogleCalendar badCredsEnv netflixSub st0 tr0).2.2.errorToasts =
      [.missingCredentials, .missingCredentials] ∧
    (addToGoogleCalendar badCredsEnv netflixSub st0 tr0).2.2.consoleErrors = 4 :=
  ⟨rfl, rfl, rfl⟩

/-- C8 (amended): every rejected invocation of addToGoogleCalendar
re-raises the error to the caller, shows no success notification, and
shows failure notifications and console logs as follows: an error that
arose from a failing initialization inside the invocation is caught both
in initGoogleCalendar and at the orchestrator boundary — two failure
toasts and four log entries; every other error is caught once — one
failure toast and two log entries. -/
theorem addToGoogleCalendar_error_propagation
    (env : Env) (sub : Subscription) (st : CalState) (tr : Trace) (e : JSError)
    (herr : (addToGoogleCalendar env sub st tr).1 = .error e) :
    (addToGoogleCalendar env sub st tr).2.2.errorToasts =
      tr.errorToasts ++
        (if st.isInitialized = false ∧ initSucceeds env = false then [e, e] else [e]) ∧
    (addToGoogleCalendar env sub st tr).2.2.successToasts = tr.successToasts ∧
    (addToGoogleCalendar env sub st tr).2.2.consoleErrors =
      tr.consoleErrors +
        (if st.isInitialized = false ∧ initSucceeds env = false then 4 else 2) := by
  rw [(addToGoogleCalendar_unfold_trace env sub st tr).1] at herr
  have htr := addToGoogleCalendarTry_error_trace env sub st tr e herr
  unfold addToGoogleCalendar
  rcases hT : addToGoogleCalendarTry env sub st tr with ⟨r, st1, tr1⟩
  rw [hT] at herr htr
  dsimp only at herr htr ⊢
  subst herr
  dsimp only
  by_cases hc : st.isInitialized = false ∧ initSucceeds env = false
  · simp only [if_pos hc] at htr ⊢
    refine ⟨?_, htr.2.1, ?_⟩
    · simp [handleGoogleCalendarError, htr.1]
    · simp only [handleGoogleCalendarError]
      omega
  · simp only [if_neg hc] at htr ⊢
    refine ⟨?_, htr.2.1, ?_⟩
    · simp [handleGoogleCalendarError, htr.1]
    · simp only [handleGoogleCalendarError]
      omega

/-- Witness for C8 (amended) at a concrete rejected invocation: the
failing insert in an already initialized state. -/
theorem addToGoogleCalendar_error_propagation_witness :
    (addToGoogleCalendar insertFailEnv netflixSub stReady tr0).2.2.errorToasts =
      tr0.errorToasts ++
        (if stReady.isInitialized = false ∧ initSucceeds insertFailEnv = false then
          [JSError.insertFailed "quota exceeded", JSError.insertFailed "quota exceeded"]
        else [JSError.insertFailed "quota exceeded"]) ∧
    (addToGoogleCalendar insertFailEnv netflixSub stReady tr0).2.2.successToasts =
      tr0.successToasts ∧
    (addToGoogleCalendar insertFailEnv netflixSub stReady tr0).2.2.consoleErrors =
      tr0.consoleErrors +
        (if stReady.isInitialized = false ∧ initSucceeds insertFailEnv = false then 4
        else 2) :=
  addToGoogleCalendar_error_propagation insertFailEnv netflixSub stReady tr0
    (.insertFailed "quota exceeded") rfl

/-- C10: the module invariant that a true isInitialized flag implies a
non-null token client is preserved by initGoogleCalendar and by
addToGoogleCalendar, and under it an orchestrator invocation whose
initialization succeeded — in this call or a prior one — never rejects
with the token-client-not-initialized error. -/
theorem tokenClient_invariant_spec (env : Env) (sub : Subscription)
    (st : CalState) (tr : Trace) (hinv : tokenClientInv st) :
    tokenClientInv (initGoogleCalendar env st tr).2.1 ∧
    tokenClientInv (addToGoogleCalendar env sub st tr).2.1 ∧
    ((st.isInitialized = true ∨ initSucceeds env = true) →
      (addToGoogleCalendar env sub st tr).1 ≠ .error .tokenClientNotInitialized) := by
  have hTry : tokenClientInv (addToGoogleCalendarTry env sub st tr).2.1 ∧
      ((st.isInitialized = true ∨ initSucceeds env = true) →
        (addToGoogleCalendarTry env sub st tr).1 ≠
          .error .tokenClientNotInitialized) := by
    unfold addToGoogleCalendarTry
    cases hini : st.isInitialized with
    | true =>
      rw [if_pos rfl]
      have hm := addAfterInit_master env sub st tr
      refine ⟨fun h => ?_, fun _ => hm.2.2 (hinv hini)⟩
      rw [hm.2.1]
      exact hinv (by rw [← hm.1]; exact h)
    | false =>
      rw [if_neg (by simp)]
      cases hs : initSucceeds env with
      | true =>
        rw [initGoogleCalendar_ok env st tr hini hs]
        dsimp only
        have hm := addAfterInit_master env sub
            { st with tokenClientSet := true, isInitialized := true }
            { tr with gisScriptLoadAttempts := tr.gisScriptLoadAttempts + 1 }
        refine ⟨fun h => ?_, fun _ => hm.2.2 rfl⟩
        rw [hm.2.1]
      | false =>
        obtain ⟨e1, hr1, hst1, htoast, hsucc, hcons, hreq, hev⟩ :=
          initGoogleCalendar_fail env st tr hini hs
        rcases hI : initGoogleCalendar env st tr with ⟨r1, st1, tr1⟩
        rw [hI] at hr1 hst1
        dsimp only at hr1 hst1
        subst hr1
        subst hst1
        dsimp only
        refine ⟨hinv, fun hor => ?_⟩
        rcases hor with h | h <;> simp_all
  have hw := addToGoogleCalendar_unfold_trace env sub st tr
  refine ⟨?_, ?_, ?_⟩
  · cases hini : st.isInitialized with
    | true =>
      have hid : initGoogleCalendar env st tr = (.ok (), st, tr) := by
        unfold initGoogleCalendar
        rw [if_pos hini]
      rw [hid]
      exact hinv
    | false =>
      cases hs : initSucceeds env with
      | true =>
        rw [initGoogleCalendar_ok env st tr hini hs]
        intro _
        rfl
      | false =>
        obtain ⟨e1, hr1, hst1, htoast, hsucc, hcons, hreq, hev⟩ :=
          initGoogleCalendar_fail env st tr hini hs
        rw [hst1]
        exact hinv
  · rw [hw.2.1]
    exact hTry.1
  · intro hor
    rw [hw.1]
    exact hTry.2 hor

/-- Witness for C10 on the initialized ready state in goodEnv. -/
theorem tokenClient_invariant_witness :
    tokenClientInv (initGoogleCalendar goodEnv stReady tr0).2.1 ∧
    tokenClientInv (addToGoogleCalendar goodEnv netflixSub stReady tr0).2.1 ∧
    ((stReady.isInitialized = true ∨ initSucceeds goodEnv = true) →
      (addToGoogleCalendar goodEnv netflixSub stReady tr0).1 ≠
        .error .tokenClientNotInitialized) :=
  tokenClient_invariant_spec goodEnv netflixSub stReady tr0 (fun _ => rfl)
